import Mathlib

/-!
Shallow embedding of the couchbase/godbc N1QL driver (package n1ql) in Lean 4,
together with theorems settling the frozen claims about its specification.

Conventions of the embedding:
* Go `interface{}` argument values reaching the wire-serialization type switches
  are modelled by `Arg`: the switch distinguishes `string`, `[]byte` and a
  default case; the default case carries its `fmt "%v"` rendering as data,
  since only the three-way dispatch (not Go's reflection-based formatting)
  is exercised by the code.
* Decoded JSON values (`interface{}` after `json.Unmarshal`) are the tagged
  variant `JVal`.  JSON numbers decode to `float64` in Go; the claims under
  study only exercise their type tag and integer renderings, so the payload
  is an `Int`.
* `url.Values` (a string-keyed multimap used with `Set`/`Del`/`Get`) is
  modelled as an association list with `valuesSet` / `valuesDel`.
* Fallible code returns `Except`; Go panics (out-of-range slice indexing)
  are explicit error values.
* The HTTP transport is an oracle `respond : String → Option Resp` mapping an
  endpoint URL to `none` (transport failure) or a response; `rand.Intn` draws
  are an oracle `picks : Nat → Nat` reduced modulo the live-set size.
-/

namespace Godbc

/-! ## Wire argument values and the two serialization switches -/

/-- A Go `interface{}` value as seen by the wire-serialization type switches:
`string`, `[]byte`, or any other type together with its default `%v` text. -/
inductive Arg where
  | strA (s : String)
  | bytesA (b : String)
  | otherA (rendered : String)
deriving DecidableEq, Repr

/-- Per-argument rendering of the type switch in `buildPositionalArgList`
(part_005 lines 50-58): strings are double-quoted, byte slices pass through
verbatim, anything else uses its default `%v` representation. -/
def argText : Arg → String
  | .strA s => "\"" ++ s ++ "\""
  | .bytesA b => b
  | .otherA r => r

/-- Per-argument rendering of the type switch in `preparePositionalArgs`
(part_006 lines 954-961), written out separately because the Go source
duplicates the switch. -/
def positionalArgText : Arg → String
  | .strA s => "\"" ++ s ++ "\""
  | .bytesA b => b
  | .otherA r => r

/-- The accumulation loop of `buildPositionalArgList` (part_005 lines 62-69):
append each rendered argument followed by "," except the last, which is
followed by "]". -/
def paListLoop (acc : String) : List String → String
  | [] => acc
  | [p] => acc ++ p ++ "]"
  | p :: q :: rest => paListLoop (acc ++ p ++ ",") (q :: rest)

/-- `buildPositionalArgList` (part_005 lines 47-73): render every argument,
then join them into a bracketed list, or return "" when there are none. -/
def buildPositionalArgList (args : List Arg) : String :=
  let positionalArgs := args.map argText
  if positionalArgs.length > 0 then paListLoop "[" positionalArgs
  else ""

/-- Comma-join, used to state what the bracketed list contains. -/
def joinComma : List String → String
  | [] => ""
  | [p] => p
  | p :: q :: rest => p ++ "," ++ joinComma (q :: rest)

/-! ## Decoded JSON values and compact re-serialization -/

/-- A decoded JSON value (Go `interface{}` after `json.Unmarshal`). -/
inductive JVal where
  | nullV
  | boolV (b : Bool)
  | numV (n : Int)
  | strV (s : String)
  | arrV (xs : List JVal)
  | objV (fields : List (String × JVal))

/-- JSON string escaping as performed by Go `json.Marshal` (quote, backslash,
HTML-significant characters, common control escapes; other control characters are
not exercised by the claims). -/
def jsonEscapeChar (c : Char) : String :=
  if c = '"' then "\\\""
  else if c = '\\' then "\\\\"
  else if c = '<' then "\\u003c"
  else if c = '>' then "\\u003e"
  else if c = '&' then "\\u0026"
  else if c = '\n' then "\\n"
  else if c = '\t' then "\\t"
  else if c = '\r' then "\\r"
  else String.singleton c

def jsonEscape (s : String) : String :=
  String.join (s.toList.map jsonEscapeChar)

/-- Byte-lexicographic string comparison as used by Go (`bytes.Compare`
order; on UTF-8 text, byte order and codepoint order coincide). -/
def charListLe : List Char → List Char → Bool
  | [], _ => true
  | _ :: _, [] => false
  | a :: as, b :: bs => if a = b then charListLe as bs else decide (a < b)

def goStringLe (a b : String) : Bool :=
  charListLe a.toList b.toList

/-- Insertion of a rendered object field into a key-sorted list, modelling
Go `json.Marshal`'s sorted map-key iteration. -/
def insertPairByKey (p : String × String) : List (String × String) → List (String × String)
  | [] => [p]
  | q :: rest => if goStringLe p.1 q.1 then p :: q :: rest else q :: insertPairByKey p rest

def sortPairsByKey : List (String × String) → List (String × String)
  | [] => []
  | p :: rest => insertPairByKey p (sortPairsByKey rest)

mutual
/-- Compact re-serialization of a decoded JSON value, as produced by Go
`json.Marshal` on an `interface{}` tree: no spaces, object keys sorted. -/
def jsonRender : JVal → String
  | .nullV => "null"
  | .boolV b => if b then "true" else "false"
  | .numV n => toString n
  | .strV s => "\"" ++ jsonEscape s ++ "\""
  | .arrV xs => "[" ++ jsonRenderElems xs ++ "]"
  | .objV fs =>
      "\x7b" ++
        String.intercalate ","
          ((sortPairsByKey (jsonRenderFields fs)).map
            (fun kv => "\"" ++ jsonEscape kv.1 ++ "\":" ++ kv.2)) ++
      "\x7d"

def jsonRenderElems : List JVal → String
  | [] => ""
  | [x] => jsonRender x
  | x :: y :: rest => jsonRender x ++ "," ++ jsonRenderElems (y :: rest)

def jsonRenderFields : List (String × JVal) → List (String × String)
  | [] => []
  | (k, v) :: rest => (k, jsonRender v) :: jsonRenderFields rest
end

/-! ## Result rows: state, Close, Scan (part_004) -/

/-- Observable state of an `n1qlRows` result stream (the fields of the Go
struct that `Close`/`Scan` read or write). -/
structure RowsState where
  closed : Bool
  rowsSent : Nat
  curValues : Option (List JVal)
  iterError : Option String

/-- `n1qlRows.Close` (part_004 lines 121-124): set the cooperative stop flag,
return no error. -/
def closeRows (st : RowsState) : Option String × RowsState :=
  (none, { st with closed := true })

/-- `n` successive calls to `Close`, keeping the final state. -/
def closeRowsIter : Nat → RowsState → RowsState
  | 0, st => st
  | n + 1, st => closeRowsIter n (closeRows st).2

/-- The caller-supplied destination pointer types accepted by `Scan`. -/
inductive DestTy where
  | f64Dest
  | strDest
  | boolDest
  | otherDest
deriving DecidableEq, Repr

/-- A value written through a destination pointer by `Scan`. -/
inductive ScanOut where
  | fOut (n : Int)
  | sOut (s : String)
  | bOut (b : Bool)
deriving DecidableEq, Repr

/-- The error cases of `n1qlRows.Scan`, structured (the Go code formats each
as a message string). -/
inductive ScanError where
  | noCurrentRow
  | tooManyDests (asked avail : Nat)
  | floatMismatch (i : Nat) (v : JVal)
  | boolMismatch (i : Nat) (v : JVal)
  | unsupportedDest (i : Nat)

/-- The per-destination loop of `n1qlRows.Scan` (part_004 lines 137-167):
`i` is the current destination index, used in error messages. -/
def scanLoop : Nat → List JVal → List DestTy → Except ScanError (List ScanOut)
  | _, _, [] => .ok []
  | i, [], _ :: _ => .error (.unsupportedDest i)
  | i, v :: vrest, d :: ds =>
    match d with
    | .f64Dest =>
      match v with
      | .numV n => (scanLoop (i + 1) vrest ds).map (fun outs => .fOut n :: outs)
      | _ => .error (.floatMismatch i v)
    | .strDest =>
      match v with
      | .strV s => (scanLoop (i + 1) vrest ds).map (fun outs => .sOut s :: outs)
      | _ => (scanLoop (i + 1) vrest ds).map (fun outs => .sOut (jsonRender v) :: outs)
    | .boolDest =>
      match v with
      | .boolV b => (scanLoop (i + 1) vrest ds).map (fun outs => .bOut b :: outs)
      | _ => .error (.boolMismatch i v)
    | .otherDest => .error (.unsupportedDest i)

/-- `n1qlRows.Scan` (part_004 lines 130-169).  The Go method only reads
`rows.curValues` and writes through the destination pointers; it mutates no
field of `rows`, which the embedding reflects by returning the state
unchanged. -/
def scanRows (st : RowsState) (dest : List DestTy) :
    Except ScanError (List ScanOut) × RowsState :=
  match st.curValues with
  | none => (.error .noCurrentRow, st)
  | some vs =>
    if dest.length > vs.length then (.error (.tooManyDests dest.length vs.length), st)
    else (scanLoop 0 vs dest, st)

/-! ## Columns derivation from the signature (part_004 lines 99-119) -/

/-- The decoded `signature` field as dispatched by `n1qlRows.Columns`:
a JSON object (only its keys matter; the list order stands for Go's
arbitrary map iteration order), a string, null, or anything else. -/
inductive Signature where
  | objSig (keys : List String)
  | strSig (s : String)
  | nullSig
  | otherSig
deriving DecidableEq, Repr

/-- `n1qlRows.Columns` (part_004 lines 99-119): collect the candidate column
names from the signature, then `sort.Strings` them (modelled by sorting with
respect to the string order; Go sorts by byte-lexicographic order, which on
UTF-8 text coincides with the codepoint-lexicographic order used here). -/
def columnsOf (sig : Signature) : List String :=
  let columns : List String :=
    match sig with
    | .objSig keys => keys
    | .strSig s => [s]
    | .nullSig => ["null"]
    | .otherSig => []
  columns.insertionSort (· ≤ ·)

/-! ## prepareQuery: placeholder rewriting (part_006 lines 933-943) -/

/-- The scan performed by `regexp.MustCompile("\\?").ReplaceAllStringFunc`
with the counting closure of `prepareQuery`: each literal `?` is replaced by
`$count` after incrementing `count`. -/
def prepareQueryChars : List Char → Nat → List Char × Nat
  | [], count => ([], count)
  | c :: rest, count =>
    if c = '?' then
      let out := prepareQueryChars rest (count + 1)
      ('$' :: (toString (count + 1)).toList ++ out.1, out.2)
    else
      let out := prepareQueryChars rest count
      (c :: out.1, out.2)

/-- `prepareQuery` (part_006 lines 933-943): rewrite `?` placeholders to
sequential `$i` markers and return the substitution count. -/
def prepareQuery (query : String) : String × Nat :=
  let r := prepareQueryChars query.toList 0
  (String.mk r.1, r.2)

/-- Claim-side formulation of the rewriting: the `i`-th `?` occurrence
(1-based, left to right) becomes `$i` and all other characters are kept. -/
def specMarkerReplace : List Char → Nat → List Char
  | [], _ => []
  | c :: rest, i =>
    if c = '?' then '$' :: (toString i).toList ++ specMarkerReplace rest (i + 1)
    else c :: specMarkerReplace rest i

/-! ## preparePositionalArgs: inline substitution (part_006 lines 947-970) -/

/-- One scanning step of Go `strings.Replacer.Replace`: at each position the
first (in argument order) non-empty pattern matching a prefix is replaced,
matches do not overlap, and scanning resumes after the replacement.  `fuel`
bounds the scan by the input length. -/
def goReplacerAux (pairs : List (String × String)) : Nat → List Char → List Char
  | 0, s => s
  | _ + 1, [] => []
  | fuel + 1, c :: rest =>
    match pairs.find? (fun p => decide (p.1 ≠ "") && p.1.toList.isPrefixOf (c :: rest)) with
    | some p => p.2.toList ++ goReplacerAux pairs fuel ((c :: rest).drop p.1.length)
    | none => c :: goReplacerAux pairs fuel rest

/-- Go `strings.NewReplacer(pairs...).Replace(s)`. -/
def goReplace (pairs : List (String × String)) (s : String) : String :=
  String.mk (goReplacerAux pairs s.toList.length s.toList)

/-- The indexed loop of `preparePositionalArgs` (part_006 lines 951-967):
arguments with index below `argCount` contribute a `($i+1, rendered)`
replacement pair, the rest are collected as left-over args. -/
def ppaLoop (argCount : Nat) : Nat → List Arg → List (String × String) × List Arg
  | _, [] => ([], [])
  | i, arg :: rest =>
    let r := ppaLoop argCount (i + 1) rest
    if i < argCount then
      (("$" ++ toString (i + 1), positionalArgText arg) :: r.1, r.2)
    else
      (r.1, arg :: r.2)

/-- `preparePositionalArgs` (part_006 lines 947-970): substitute the first
`argCount` arguments for their `$i` markers in the query text and return the
left-over arguments. -/
def preparePositionalArgs (query : String) (argCount : Nat) (args : List Arg) :
    String × List Arg :=
  let r := ppaLoop argCount 0 args
  (goReplace r.1 query, r.2)

/-- The argument-encoding prefix of `n1qlConn.Query` / `QueryRaw` / `Exec` /
`ExecRaw` (part_006 lines 818-830): with at least one argument, rewrite `?`
markers, require the marker count to equal the argument count, and inline the
positional arguments; the resulting statement text is what is handed on to
`performQuery(query, nil)`. -/
def connQueryEncode (query : String) (args : List Arg) : Except String String :=
  if args.length > 0 then
    let r := prepareQuery query
    if r.2 ≠ args.length then
      .error ("Argument count mismatch " ++ toString r.2 ++ " != " ++ toString args.length)
    else
      .ok (preparePositionalArgs r.1 r.2 args).1
  else
    .ok query

/-! ## url.Values and setQueryParams (part_006 lines 1004-1019) -/

/-- `url.Values.Set`: replace the value under a key, or add the pair. -/
def valuesSet (v : List (String × String)) (k val : String) : List (String × String) :=
  if (v.lookup k).isSome then
    v.map (fun p => if p.1 = k then (k, val) else p)
  else
    v ++ [(k, val)]

/-- `url.Values.Del`. -/
def valuesDel (v : List (String × String)) (k : String) : List (String × String) :=
  v.filter (fun p => p.1 ≠ k)

/-- `setQueryParams` (part_006 lines 1004-1019): merge the process-wide
`QueryParams` map (skipping keys present in `txParams`), then set each
non-empty transaction parameter and delete each empty one. -/
def setQueryParams (queryParams txParams : List (String × String))
    (v : List (String × String)) : List (String × String) :=
  let v1 := queryParams.foldl
    (fun acc kv => if (txParams.lookup kv.1).isSome then acc else valuesSet acc kv.1 kv.2) v
  txParams.foldl
    (fun acc kv => if kv.2 ≠ "" then valuesSet acc kv.1 kv.2 else valuesDel acc kv.1) v1

/-! ## Prepared statements (part_005) -/

/-- The fields of `n1qlStmt` (part_005 lines 27-33) that its methods use. -/
structure N1qlStmtState where
  prepared : String
  signature : String
  argCount : Nat
  name : String
deriving DecidableEq, Repr

/-- The form-data of a request, plus the abstract outcome type of
`performQuery`/`performExec`: success carries an opaque handle. -/
abbrev PostData := List (String × String)

/-- `n1qlStmt.prepareRequest` (part_005 lines 77-102): send the quoted server
name if one is cached, otherwise the full inline plan body; fail when fewer
arguments than declared positional parameters are supplied; otherwise attach
all supplied arguments as the "args" field and merge the global query
parameters. -/
def stmtPrepareRequest (queryParams : List (String × String))
    (stmt : N1qlStmtState) (args : List Arg) : Except String PostData :=
  let postData : PostData := []
  let postData :=
    if stmt.name ≠ "" then valuesSet postData "prepared" ("\"" ++ stmt.name ++ "\"")
    else valuesSet postData "prepared" stmt.prepared
  if args.length < stmt.argCount then
    .error "N1QL: Insufficient args. Prepared statement contains positional args"
  else
    let postData :=
      if args.length > 0 then
        let paStr := buildPositionalArgList args
        if paStr.length > 0 then valuesSet postData "args" paStr else postData
      else postData
    .ok (setQueryParams queryParams [] postData)

/-- The retry loop of `n1qlStmt.Query`/`QueryRaw` (part_005 lines 109-123):
build the request, perform it, and on failure with a non-empty cached name
clear the name and jump back to `retry`.  `exec` abstracts
`performQuery`/`performQueryRaw` as a function of the posted form data; the
third component records the submitted requests in order.  Two units of fuel
always suffice: a retry clears the name and the retry guard requires a
non-empty name. -/
def stmtQueryLoop (exec : PostData → Except String Nat)
    (queryParams : List (String × String)) :
    Nat → N1qlStmtState → List Arg →
    Except String Nat × N1qlStmtState × List PostData
  | 0, stmt, _ => (.error "out of fuel", stmt, [])
  | fuel + 1, stmt, args =>
    match stmtPrepareRequest queryParams stmt args with
    | .error e => (.error e, stmt, [])
    | .ok requestValues =>
      match exec requestValues with
      | .error e =>
        if stmt.name ≠ "" then
          let r := stmtQueryLoop exec queryParams fuel { stmt with name := "" } args
          (r.1, r.2.1, requestValues :: r.2.2)
        else
          (.error e, stmt, [requestValues])
      | .ok rows => (.ok rows, stmt, [requestValues])

/-- `n1qlStmt.Query` (part_005 lines 104-123). -/
def stmtQuery (exec : PostData → Except String Nat)
    (queryParams : List (String × String)) (stmt : N1qlStmtState)
    (args : List Arg) : Except String Nat × N1qlStmtState × List PostData :=
  if stmt.prepared = "" then (.error "N1QL: Prepared statement not found", stmt, [])
  else stmtQueryLoop exec queryParams 2 stmt args

/-- `n1qlStmt.Exec` (part_005 lines 158-168): a single attempt, no retry
loop.  `exec` abstracts `performExec`. -/
def stmtExec (exec : PostData → Except String Nat)
    (queryParams : List (String × String)) (stmt : N1qlStmtState)
    (args : List Arg) : Except String Nat × N1qlStmtState × List PostData :=
  if stmt.prepared = "" then (.error "N1QL: Prepared statement not found", stmt, [])
  else
    match stmtPrepareRequest queryParams stmt args with
    | .error e => (.error e, stmt, [])
    | .ok requestValues => (exec requestValues, stmt, [requestValues])

/-! ## Connection, transaction classification, request failover (part_006) -/

/-- The fixed no-op statement (`N1QL_DEFAULT_STATEMENT`, part_006 line 49). -/
def N1QL_DEFAULT_STATEMENT : String := "SELECT RAW 1;"

/-- An HTTP response, abstracted: its status code and the transaction id its
body would yield to `getTxid`'s JSON parse (empty when there is none). -/
structure Resp where
  status : Nat
  txidBody : String
deriving DecidableEq, Repr

/-- `getTxid` (part_006 lines 1119-1143), with the body parse abstracted into
`Resp.txidBody`: a non-200 response yields no transaction id. -/
def getTxid (r : Resp) : String :=
  if r.status ≠ 200 then "" else r.txidBody

/-- The routing-relevant fields of `n1qlConn` (part_006 lines 154-161). -/
structure ConnState where
  queryAPIs : List String
  txid : String
  txService : String
deriving DecidableEq, Repr

/-- `conn.SetTxValues` (part_006 lines 584-589). -/
def setTxValues (st : ConnState) (txid txService : String) : ConnState :=
  { st with txid := txid, txService := txService }

/-- The statement classification constants (part_006 lines 1088-1093). -/
inductive TxStmtType where
  | TX_NONE
  | TX_START
  | TX_COMMIT
  | TX_ROLLBACK
deriving DecidableEq, Repr

/-- Go `strings.TrimSpace`: strip leading and trailing whitespace. -/
def goTrimSpace (s : String) : String :=
  String.mk (((s.toList.dropWhile Char.isWhitespace).reverse.dropWhile
    Char.isWhitespace).reverse)

/-- Go `strings.ToLower` (ASCII; the classified keywords are ASCII). -/
def goToLower (s : String) : String :=
  String.mk (s.toList.map Char.toLower)

/-- Go `strings.Fields`: the maximal runs of non-whitespace characters. -/
def goFields (s : String) : List String :=
  ((s.toList.splitOnP (·.isWhitespace)).filter (· ≠ [])).map String.mk

/-- Go `strings.TrimRight(s, ";")`. -/
def trimRightSemis (s : String) : String :=
  String.mk ((s.toList.reverse.dropWhile (· = ';')).reverse)

/-- `txStatementType` (part_006 lines 1095-1117): classify the leading token
of the trimmed, 32-truncated, lower-cased statement text. -/
def txStatementType (query : String) : TxStmtType :=
  let q := goTrimSpace query
  let q := if q.length > 32 then String.mk (q.toList.take 32) else q
  let q := goToLower q
  match goFields q with
  | [] => .TX_NONE
  | w :: rest =>
    let head := trimRightSemis w
    if head = "start" ∨ head = "begin" then
      if rest.length ≥ 1 then .TX_START else .TX_NONE
    else if head = "commit" then .TX_COMMIT
    else if head = "rollback" then
      if rest.length < 2 then .TX_ROLLBACK else .TX_NONE
    else .TX_NONE

/-- The outcome of the endpoint-selection block at the top of the
`doClientRequest` loop (part_006 lines 521-535). -/
structure Selection where
  queryAPI : String
  txParams : List (String × String)
  selectedNode : Nat
  numNodes : Nat
deriving DecidableEq, Repr

/-- The endpoint-selection block of `doClientRequest` (part_006 lines
521-535): with a non-empty transaction id and a statement other than the
fixed default one, force the sticky transaction endpoint and attach the
`txid`/`tximplicit` parameters (`selectedNode`/`numNodes` keep their zero
values); otherwise attach a `txtimeout` parameter when starting a transaction
with a configured timeout, and choose a random node of the live set. -/
def selectEndpoint (txTimeout : String) (stmtType : TxStmtType) (query : String)
    (st : ConnState) (pick : Nat) : Selection :=
  if st.txid ≠ "" ∧ query ≠ N1QL_DEFAULT_STATEMENT then
    { queryAPI := st.txService
      txParams := [("txid", st.txid), ("tximplicit", "")]
      selectedNode := 0
      numNodes := 0 }
  else
    let txParams :=
      if stmtType = .TX_START ∧ txTimeout ≠ "" then [("txtimeout", txTimeout)] else []
    let numNodes := st.queryAPIs.length
    let selectedNode := pick % numNodes
    { queryAPI := st.queryAPIs.getD selectedNode ""
      txParams := txParams
      selectedNode := selectedNode
      numNodes := numNodes }

/-- The retry loop of `doClientRequest` (part_006 lines 508-582).  `respond`
abstracts `conn.client.Do`: `none` is a transport failure.  `picks` abstracts
the successive `rand.Intn` draws (`picks k` is reduced modulo the live-set
size), `k` counts iterations.  The third component is the ordered trace of
endpoint URLs attempted.  One unit of fuel per iteration suffices because
every non-terminating iteration removes an endpoint; Go would panic in
`rand.Intn(0)` on an empty live set, which the embedding makes an explicit
error, and the fuel-exhaustion branch is unreachable from the wrapper. -/
def doClientRequestLoop (respond : String → Option Resp) (picks : Nat → Nat)
    (txTimeout : String) (query : String) (stmtType : TxStmtType) :
    Nat → Nat → ConnState → Except String Resp × ConnState × List String
  | _, 0, st => (.error "out of fuel", st, [])
  | k, fuel + 1, st =>
    if ¬ (st.txid ≠ "" ∧ query ≠ N1QL_DEFAULT_STATEMENT) ∧ st.queryAPIs.length = 0 then
      (.error "panic: invalid argument to Intn", st, [])
    else
      match respond (selectEndpoint txTimeout stmtType query st (picks k)).queryAPI with
      | none =>
        if st.txService ≠ "" ∨
            (selectEndpoint txTimeout stmtType query st (picks k)).numNodes = 1 then
          (.error "N1QL: Query nodes not responding", setTxValues st "" "",
            [(selectEndpoint txTimeout stmtType query st (picks k)).queryAPI])
        else
          ((doClientRequestLoop respond picks txTimeout query stmtType (k + 1) fuel
              { st with queryAPIs := (st.queryAPIs.eraseIdx
                  (selectEndpoint txTimeout stmtType query st (picks k)).selectedNode) }).1,
            (doClientRequestLoop respond picks txTimeout query stmtType (k + 1) fuel
              { st with queryAPIs := (st.queryAPIs.eraseIdx
                  (selectEndpoint txTimeout stmtType query st (picks k)).selectedNode) }).2.1,
            (selectEndpoint txTimeout stmtType query st (picks k)).queryAPI ::
              (doClientRequestLoop respond picks txTimeout query stmtType (k + 1) fuel
                { st with queryAPIs := (st.queryAPIs.eraseIdx
                    (selectEndpoint txTimeout stmtType query st (picks k)).selectedNode) }).2.2)
      | some resp =>
        (.ok resp,
          (if stmtType = .TX_START then
            (if getTxid resp ≠ "" then
              setTxValues st (getTxid resp)
                (selectEndpoint txTimeout stmtType query st (picks k)).queryAPI
            else st)
          else if stmtType = .TX_COMMIT ∨ stmtType = .TX_ROLLBACK then
            setTxValues st "" ""
          else st),
          [(selectEndpoint txTimeout stmtType query st (picks k)).queryAPI])

/-- `doClientRequest` (part_006 lines 508-582). -/
def doClientRequest (respond : String → Option Resp) (picks : Nat → Nat)
    (txTimeout : String) (query : String) (st : ConnState) :
    Except String Resp × ConnState × List String :=
  doClientRequestLoop respond picks txTimeout query (txStatementType query) 0
    (st.queryAPIs.length + 1) st

/-! ## stripurl: credential redaction (part_006 lines 463-505) -/

/-- The runtime faults a total embedding of `stripurl` has to account for:
Go's out-of-range string slicing panics, plus fuel exhaustion of the
unbounded self-recursion (a modelling artefact, unreachable in the claims). -/
inductive GoFault where
  | sliceOutOfRange
  | fuelExhausted
deriving DecidableEq, Repr

/-- Go `strings.Index` (over characters; all inputs of interest are ASCII,
where byte and character indices coincide): the first index at which `sub`
occurs in `s`, or `none` where Go returns `-1`. -/
def goIndexAux (sub : List Char) : List Char → Nat → Option Nat
  | [], i => if sub.isPrefixOf [] then some i else none
  | c :: t, i => if sub.isPrefixOf (c :: t) then some i else goIndexAux sub t (i + 1)

def goIndexChars (s sub : List Char) : Option Nat :=
  goIndexAux sub s 0

/-- Go slice `s[:k]` for a possibly negative bound, with the bounds check. -/
def goSliceTo (s : List Char) (k : Int) : Except GoFault (List Char) :=
  if 0 ≤ k ∧ k ≤ (s.length : Int) then .ok (s.take k.toNat) else .error .sliceOutOfRange

/-- Go slice `s[k:]` for a possibly negative bound, with the bounds check. -/
def goSliceFrom (s : List Char) (k : Int) : Except GoFault (List Char) :=
  if 0 ≤ k ∧ k ≤ (s.length : Int) then .ok (s.drop k.toNat) else .error .sliceOutOfRange

/-- ASCII approximation of Go `unicode.IsSymbol(c) || unicode.IsPunct(c)`:
a printable ASCII character that is neither alphanumeric nor a space. -/
def isSymbolOrPunct (c : Char) : Bool :=
  33 ≤ c.toNat && c.toNat ≤ 126 && !c.isAlphanum

mutual
/-- `stripurl` (part_006 lines 463-505), total.  `parseUser` abstracts
`url.Parse` followed by the `.User` lookup: an error, no user info, or a
`(username, password)` pair.  The first argument of the recursion is fuel for
the self-recursive masking loop at lines 499-502.  The two leading
`strings.Index` calls are followed by unchecked slicing: when "http" does not
occur (`startindex = -1`) Go panics slicing `inputstring[startindex:]`, and
when no space follows it (`endindex = -1`) Go panics slicing
`inputstring[startindex : startindex+endindex]`. -/
def stripurl (parseUser : String → Except Unit (Option (String × String))) :
    Nat → String → Except GoFault String
  | 0, _ => .error .fuelExhausted
  | fuel + 1, s =>
    match goIndexChars s.toList ("http".toList) with
    | none => .error .sliceOutOfRange
    | some startindex =>
      match goIndexChars (s.toList.drop startindex) (" ".toList) with
      | none => .error .sliceOutOfRange
      | some endindex =>
        let inputurl := String.mk ((s.toList.drop startindex).take endindex)
        match parseUser inputurl with
        | .error _ => .ok s
        | .ok none => .ok s
        | .ok (some (uname, pwd)) =>
          let num := (pwd.toList.filter (fun c => isSymbolOrPunct c && c ≠ '*')).length
          let start2 : Int :=
            match goIndexChars s.toList uname.toList with
            | none => -1
            | some n => (n : Int)
          match goSliceTo s.toList (start2 + uname.length + 1) with
          | .error e => .error e
          | .ok pre =>
            match goSliceFrom s.toList (start2 + uname.length + 1 + pwd.length) with
            | .error e => .error e
            | .ok post =>
              stripurlMaskLoop parseUser fuel num (String.mk pre ++ "*" ++ String.mk post)
termination_by fuel _ => (fuel, 0)

/-- The `for num > 0` loop at part_006 lines 499-502: re-apply `stripurl`
`num` more times. -/
def stripurlMaskLoop (parseUser : String → Except Unit (Option (String × String))) :
    Nat → Nat → String → Except GoFault String
  | _, 0, s => .ok s
  | fuel, num + 1, s =>
    match stripurl parseUser fuel s with
    | .error e => .error e
    | .ok s2 => stripurlMaskLoop parseUser fuel num s2
termination_by fuel num _ => (fuel, num + 1)
end

/-! # Theorems -/

theorem columnsOf_sorted (sig : Signature) : (columnsOf sig).Sorted (· ≤ ·) := by
  exact List.sorted_insertionSort (· ≤ ·) _

/-- C5: `Columns` returns the object signature's keys sorted
lexicographically, a single column equal to the signature string for a string
signature, a single column named "null" for a null signature, and the result
is always lexicographically sorted. -/
theorem c5_columns :
    (∀ ks : List String,
      (columnsOf (.objSig ks)).Perm ks ∧ (columnsOf (.objSig ks)).Sorted (· ≤ ·))
    ∧ (∀ s : String, columnsOf (.strSig s) = [s])
    ∧ columnsOf .nullSig = ["null"]
    ∧ (∀ sig : Signature, (columnsOf sig).Sorted (· ≤ ·)) := by
  refine ⟨fun ks => ⟨?_, columnsOf_sorted _⟩, fun s => rfl, rfl, columnsOf_sorted⟩
  exact List.perm_insertionSort (· ≤ ·) ks

/-- C7: the scalar-to-text wire encoding quotes strings, passes byte
sequences through verbatim, uses the default rendering otherwise, and the
inline-substitution path (`preparePositionalArgs`) applies the identical rule
as the positional-args-array path (`buildPositionalArgList`). -/
theorem c7_scalar_serialization :
    (∀ s : String, argText (.strA s) = "\"" ++ s ++ "\"")
    ∧ (∀ b : String, argText (.bytesA b) = b)
    ∧ (∀ r : String, argText (.otherA r) = r)
    ∧ (∀ a : Arg, argText a = positionalArgText a) := by
  refine ⟨fun s => rfl, fun b => rfl, fun r => rfl, fun a => ?_⟩
  cases a <;> rfl

theorem prepareQueryChars_eq (l : List Char) :
    ∀ count : Nat,
      prepareQueryChars l count =
        (specMarkerReplace l (count + 1), count + l.count '?') := by
  induction l with
  | nil => intro count; simp [prepareQueryChars, specMarkerReplace]
  | cons c rest ih =>
    intro count
    by_cases h : c = '?'
    · subst h
      simp [prepareQueryChars, specMarkerReplace, ih, List.count_cons]
      omega
    · simp [prepareQueryChars, specMarkerReplace, h, ih, List.count_cons]

/-- C8: `prepareQuery` replaces the i-th `?` occurrence (left to right,
1-based) with the marker `$i`, leaves all other characters unchanged, and its
count equals the total number of `?` occurrences in the input. -/
theorem c8_prepareQuery (s : String) :
    prepareQuery s = (String.mk (specMarkerReplace s.toList 1), s.toList.count '?') := by
  simp [prepareQuery, prepareQueryChars_eq]

theorem closeRowsIter_succ (m : Nat) :
    ∀ st : RowsState, closeRowsIter (m + 1) st = { st with closed := true } := by
  induction m with
  | zero => intro st; rfl
  | succ m ih =>
    intro st
    show closeRowsIter (m + 1) (closeRows st).2 = _
    rw [ih]
    rfl

/-- C9: `Close` returns no error and is idempotent: the stream state after
`n ≥ 1` close calls (whatever the stream's prior state, including exhausted
ones) equals the state after a single close call. -/
theorem c9_close_idempotent (st : RowsState) (n : Nat) (h : 1 ≤ n) :
    (closeRows st).1 = none ∧ closeRowsIter n st = closeRowsIter 1 st := by
  refine ⟨rfl, ?_⟩
  obtain ⟨m, rfl⟩ := Nat.exists_eq_add_of_le h
  rw [Nat.add_comm 1 m, closeRowsIter_succ, closeRowsIter_succ]

/-- Witness for C9 at a concrete exhausted-stream state and three closes. -/
theorem c9_close_idempotent_witness :
    (closeRows ⟨false, 5, none, none⟩).1 = none ∧
      closeRowsIter 3 ⟨false, 5, none, none⟩ = closeRowsIter 1 ⟨false, 5, none, none⟩ :=
  c9_close_idempotent ⟨false, 5, none, none⟩ 3 (by decide)

theorem paListLoop_eq (ps : List String) :
    ∀ acc : String, ps ≠ [] → paListLoop acc ps = acc ++ joinComma ps ++ "]" := by
  induction ps with
  | nil => intro acc h; exact absurd rfl h
  | cons p rest ih =>
    intro acc _
    cases rest with
    | nil => simp [paListLoop, joinComma]
    | cons q r =>
      rw [show paListLoop acc (p :: q :: r) = paListLoop (acc ++ p ++ ",") (q :: r) from rfl,
        ih (acc ++ p ++ ",") (by simp)]
      simp [joinComma, String.append_assoc]

theorem buildPositionalArgList_eq (args : List Arg) (h : args ≠ []) :
    buildPositionalArgList args = "[" ++ joinComma (args.map argText) ++ "]" := by
  have hne : args.map argText ≠ [] := by
    simpa using h
  simp only [buildPositionalArgList]
  rw [if_pos (by simpa using List.length_pos.mpr hne), paListLoop_eq _ _ hne]

theorem ppaLoop_snd (argCount : Nat) (args : List Arg) :
    ∀ i : Nat, (ppaLoop argCount i args).2 = args.drop (argCount - i) := by
  induction args with
  | nil => intro i; simp [ppaLoop]
  | cons a rest ih =>
    intro i
    by_cases h : i < argCount
    · rw [show ppaLoop argCount i (a :: rest) =
          (("$" ++ toString (i + 1), positionalArgText a) :: (ppaLoop argCount (i + 1) rest).1,
            (ppaLoop argCount (i + 1) rest).2) from by simp [ppaLoop, h]]
      rw [ih (i + 1)]
      have : argCount - i = (argCount - (i + 1)) + 1 := by omega
      rw [this, List.drop_succ_cons]
    · rw [show ppaLoop argCount i (a :: rest) =
          ((ppaLoop argCount (i + 1) rest).1, a :: (ppaLoop argCount (i + 1) rest).2) from by
            simp [ppaLoop, h]]
      rw [ih (i + 1)]
      have h1 : argCount - i = 0 := by omega
      have h2 : argCount - (i + 1) = 0 := by omega
      simp [h1, h2]

/-- C3 (amended): with fewer supplied arguments than placeholders both paths
fail (the prepared-statement path with the insufficient-args error, the
direct path — which checks only when at least one argument is supplied —
with the argument-count-mismatch error).  The direct path also rejects more
arguments than placeholders, since it requires the counts to be equal.  The
prepared-statement path accepts surplus arguments and forwards all supplied
arguments — the extras included, in their original order — as the bracketed
"args" field; the `preparePositionalArgs` helper returns exactly the
arguments beyond the marker count, preserving their order. -/
theorem c3_argument_counts :
    (∀ (qp : List (String × String)) (stmt : N1qlStmtState) (args : List Arg),
      args.length < stmt.argCount →
      stmtPrepareRequest qp stmt args =
        .error "N1QL: Insufficient args. Prepared statement contains positional args")
    ∧ (∀ (query : String) (args : List Arg),
      args ≠ [] → (prepareQuery query).2 ≠ args.length →
      connQueryEncode query args =
        .error ("Argument count mismatch " ++ toString (prepareQuery query).2 ++
          " != " ++ toString args.length))
    ∧ (∀ (stmt : N1qlStmtState) (args : List Arg),
      stmt.argCount ≤ args.length → args ≠ [] →
      ∃ pv, stmtPrepareRequest [] stmt args =
        .ok [("prepared", pv), ("args", "[" ++ joinComma (args.map argText) ++ "]")])
    ∧ (∀ (query : String) (argCount : Nat) (args : List Arg),
      (preparePositionalArgs query argCount args).2 = args.drop argCount) := by
  refine ⟨?_, ?_, ?_, ?_⟩
  · intro qp stmt args h
    simp only [stmtPrepareRequest]
    rw [if_pos h]
  · intro query args hne hcount
    have hlen : args.length > 0 := List.length_pos.mpr hne
    simp only [connQueryEncode]
    rw [if_pos hlen, if_pos hcount]
  · intro stmt args hge hne
    have hpa := buildPositionalArgList_eq args hne
    have hpalen : (buildPositionalArgList args).length > 0 := by
      rw [hpa]
      have h1 : ("[" ++ joinComma (args.map argText) ++ "]").length =
          "[".length + ((joinComma (args.map argText)).length + "]".length) := by
        simp [String.length_append]
        omega
      have h2 : "[".length = 1 := rfl
      omega
    have hnotlt : ¬ args.length < stmt.argCount := by omega
    have hl : 0 < args.length := List.length_pos.mpr hne
    by_cases hname : stmt.name ≠ ""
    · refine ⟨"\"" ++ stmt.name ++ "\"", ?_⟩
      have hstep : stmtPrepareRequest [] stmt args =
          .ok [("prepared", "\"" ++ stmt.name ++ "\""),
            ("args", buildPositionalArgList args)] := by
        simp [stmtPrepareRequest, hname, hnotlt, hl, hpalen, valuesSet, setQueryParams]
      rw [hstep, hpa]
    · refine ⟨stmt.prepared, ?_⟩
      have hstep : stmtPrepareRequest [] stmt args =
          .ok [("prepared", stmt.prepared), ("args", buildPositionalArgList args)] := by
        simp [stmtPrepareRequest, hname, hnotlt, hl, hpalen, valuesSet, setQueryParams]
      rw [hstep, hpa]
  · intro query argCount args
    simp only [preparePositionalArgs]
    rw [ppaLoop_snd]
    simp

/-- C3 counterexample: a statement with one placeholder and two supplied
arguments makes the direct query path fail with the argument-count-mismatch
error, where the claim requires the encoding to succeed and forward the
extra argument. -/
theorem c3_counterexample :
    connQueryEncode "f(?)" [.otherA "1", .otherA "2"] =
      .error "Argument count mismatch 1 != 2" := by
  rfl

/-- Witness for C3 at concrete inputs: one-placeholder statement, and a
prepared statement with one declared parameter given three arguments. -/
theorem c3_argument_counts_witness :
    stmtPrepareRequest [] ⟨"PLAN", "", 3, ""⟩ [Arg.strA "a"] =
      .error "N1QL: Insufficient args. Prepared statement contains positional args"
    ∧ connQueryEncode "f(?)" [.otherA "7", .otherA "8"] =
      .error ("Argument count mismatch " ++ toString (prepareQuery "f(?)").2 ++ " != " ++
        toString ([Arg.otherA "7", Arg.otherA "8"].length))
    ∧ (∃ pv, stmtPrepareRequest [] ⟨"PLAN", "", 1, ""⟩
        [Arg.strA "x", Arg.otherA "9", Arg.bytesA "raw"] =
        .ok [("prepared", pv),
          ("args", "[" ++ joinComma ([Arg.strA "x", Arg.otherA "9",
            Arg.bytesA "raw"].map argText) ++ "]")]) :=
  ⟨c3_argument_counts.1 [] ⟨"PLAN", "", 3, ""⟩ [Arg.strA "a"] (by decide),
   c3_argument_counts.2.1 "f(?)" [.otherA "7", .otherA "8"] (by decide) (by decide),
   c3_argument_counts.2.2.1 ⟨"PLAN", "", 1, ""⟩
     [Arg.strA "x", Arg.otherA "9", Arg.bytesA "raw"] (by decide) (by decide)⟩

/-- C6: `Scan` assigns a float destination only from a numeric value and a
bool destination only from a boolean value (any other value is a scan
error), assigns a string destination from a native string directly and from
any non-string value by its compact JSON serialization, and supplying more
destinations than the current row's width is a scan error that leaves the
stream state untouched; the spec's composite examples scan to the expected
compact JSON texts. -/
theorem c6_scan :
    (∀ (st : RowsState) (vs : List JVal) (ds : List DestTy),
      st.curValues = some vs → vs.length < ds.length →
      scanRows st ds = (.error (.tooManyDests ds.length vs.length), st))
    ∧ (∀ (i : Nat) (n : Int) (vrest : List JVal) (ds : List DestTy),
      scanLoop i (.numV n :: vrest) (.f64Dest :: ds) =
        (scanLoop (i + 1) vrest ds).map (fun outs => .fOut n :: outs))
    ∧ (∀ (i : Nat) (v : JVal) (vrest : List JVal) (ds : List DestTy),
      (∀ n : Int, v ≠ .numV n) →
      scanLoop i (v :: vrest) (.f64Dest :: ds) = .error (.floatMismatch i v))
    ∧ (∀ (i : Nat) (b : Bool) (vrest : List JVal) (ds : List DestTy),
      scanLoop i (.boolV b :: vrest) (.boolDest :: ds) =
        (scanLoop (i + 1) vrest ds).map (fun outs => .bOut b :: outs))
    ∧ (∀ (i : Nat) (v : JVal) (vrest : List JVal) (ds : List DestTy),
      (∀ b : Bool, v ≠ .boolV b) →
      scanLoop i (v :: vrest) (.boolDest :: ds) = .error (.boolMismatch i v))
    ∧ (∀ (i : Nat) (s : String) (vrest : List JVal) (ds : List DestTy),
      scanLoop i (.strV s :: vrest) (.strDest :: ds) =
        (scanLoop (i + 1) vrest ds).map (fun outs => .sOut s :: outs))
    ∧ (∀ (i : Nat) (v : JVal) (vrest : List JVal) (ds : List DestTy),
      (∀ s : String, v ≠ .strV s) →
      scanLoop i (v :: vrest) (.strDest :: ds) =
        (scanLoop (i + 1) vrest ds).map (fun outs => .sOut (jsonRender v) :: outs))
    ∧ scanRows ⟨false, 0, some [.arrV [.numV 1, .numV 2, .numV 3],
          .objV [("a", .strV "b"), ("c", .strV "d")]], none⟩ [.strDest, .strDest] =
        (.ok [.sOut "[1,2,3]", .sOut "\x7b\"a\":\"b\",\"c\":\"d\"\x7d"],
          ⟨false, 0, some [.arrV [.numV 1, .numV 2, .numV 3],
            .objV [("a", .strV "b"), ("c", .strV "d")]], none⟩) := by
  refine ⟨?_, ?_, ?_, ?_, ?_, ?_, ?_, ?_⟩
  · intro st vs ds hcur hlen
    simp [scanRows, hcur, hlen]
  · intro i n vrest ds; rfl
  · intro i v vrest ds h
    cases v with
    | numV n => exact absurd rfl (h n)
    | nullV => rfl
    | boolV b => rfl
    | strV s => rfl
    | arrV xs => rfl
    | objV fs => rfl
  · intro i b vrest ds; rfl
  · intro i v vrest ds h
    cases v with
    | boolV b => exact absurd rfl (h b)
    | nullV => rfl
    | numV n => rfl
    | strV s => rfl
    | arrV xs => rfl
    | objV fs => rfl
  · intro i s vrest ds; rfl
  · intro i v vrest ds h
    cases v with
    | strV s => exact absurd rfl (h s)
    | nullV => rfl
    | numV n => rfl
    | boolV b => rfl
    | arrV xs => rfl
    | objV fs => rfl
  · rfl

/-- Witness for C6: a string value refused by a float destination, and an
over-wide destination list, at concrete inputs. -/
theorem c6_scan_witness :
    scanLoop 7 [JVal.strV "x"] [DestTy.f64Dest] =
      .error (.floatMismatch 7 (JVal.strV "x"))
    ∧ scanRows ⟨true, 2, some [JVal.nullV], some "e"⟩ [DestTy.strDest, DestTy.strDest] =
      (.error (.tooManyDests 2 1), ⟨true, 2, some [JVal.nullV], some "e"⟩) :=
  ⟨c6_scan.2.2.1 7 (JVal.strV "x") [] [] (fun n h => JVal.noConfusion h),
   c6_scan.1 ⟨true, 2, some [JVal.nullV], some "e"⟩ [JVal.nullV]
     [DestTy.strDest, DestTy.strDest] rfl (by decide)⟩

/-- C2 counterexample: `Exec` on a prepared statement with a non-empty
cached name whose first attempt fails makes no retry at all — it submits one
single request and leaves the name intact — whereas the claim requires every
failed `Query` or `Exec` first attempt to trigger exactly one retry with the
name cleared. -/
theorem c2_counterexample :
    (stmtExec (fun _ => .error "boom") [] ⟨"PLAN", "", 0, "NAME"⟩ []).2.2.length = 1
    ∧ (stmtExec (fun _ => .error "boom") [] ⟨"PLAN", "", 0, "NAME"⟩ []).2.1.name = "NAME" := by
  constructor <;> rfl

/-- C2 (amended): only `Query`/`QueryRaw` retry.  On a prepared statement
with a non-empty cached name, a failed first `Query` attempt triggers exactly
one retry with the name cleared (submitting the inline plan body instead of
the quoted name) and no further attempt; a statement whose name is already
empty is never retried; a successful first attempt is never retried; and
`Exec`/`ExecRaw` always make exactly one attempt. -/
theorem c2_retry_once (exec : PostData → Except String Nat)
    (qp : List (String × String)) (stmt : N1qlStmtState) (args : List Arg) :
    (∀ (pd pd2 : PostData) (e : String), stmt.prepared ≠ "" → stmt.name ≠ "" →
      stmtPrepareRequest qp stmt args = .ok pd → exec pd = .error e →
      stmtPrepareRequest qp { stmt with name := "" } args = .ok pd2 →
      stmtQuery exec qp stmt args = (exec pd2, { stmt with name := "" }, [pd, pd2]))
    ∧ (∀ pd : PostData, stmt.prepared ≠ "" → stmt.name = "" →
      stmtPrepareRequest qp stmt args = .ok pd →
      stmtQuery exec qp stmt args = (exec pd, stmt, [pd]))
    ∧ (∀ (pd : PostData) (r : Nat), stmt.prepared ≠ "" →
      stmtPrepareRequest qp stmt args = .ok pd → exec pd = .ok r →
      stmtQuery exec qp stmt args = (.ok r, stmt, [pd]))
    ∧ (∀ pd : PostData, stmt.prepared ≠ "" →
      stmtPrepareRequest qp stmt args = .ok pd →
      stmtExec exec qp stmt args = (exec pd, stmt, [pd])) := by
  refine ⟨?_, ?_, ?_, ?_⟩
  · intro pd pd2 e hprep hname hpd hexec hpd2
    simp only [stmtQuery, if_neg hprep, stmtQueryLoop, hpd, hexec, if_pos hname, hpd2]
    cases hx : exec pd2 with
    | error e2 => simp [stmtQueryLoop, hx]
    | ok r => simp [stmtQueryLoop, hx]
  · intro pd hprep hname hpd
    simp only [stmtQuery, if_neg hprep, stmtQueryLoop, hpd]
    cases hx : exec pd with
    | error e2 => simp [hx, hname]
    | ok r => simp [hx]
  · intro pd r hprep hpd hexec
    simp [stmtQuery, if_neg hprep, stmtQueryLoop, hpd, hexec]
  · intro pd hprep hpd
    simp [stmtExec, if_neg hprep, hpd]

/-- Witness for C2 at a concrete statement: the named first attempt is
refused, the inline retry succeeds, the name ends up cleared, exactly two
requests were submitted. -/
theorem c2_retry_once_witness :
    stmtQuery
      (fun pd => if pd.lookup "prepared" = some "\"NAME\"" then .error "cache miss" else .ok 7)
      [] ⟨"PLAN", "", 0, "NAME"⟩ [] =
    (.ok 7, ⟨"PLAN", "", 0, ""⟩,
      [[("prepared", "\"NAME\"")], [("prepared", "PLAN")]]) := by
  have h := (c2_retry_once
    (fun pd => if pd.lookup "prepared" = some "\"NAME\"" then .error "cache miss" else .ok 7)
    [] ⟨"PLAN", "", 0, "NAME"⟩ []).1
    [("prepared", "\"NAME\"")] [("prepared", "PLAN")] "cache miss"
    (by decide) (by decide) (by rfl) (by rfl) (by rfl)
  rw [h]
  rfl

theorem getElem_not_mem_eraseIdx (l : List String) :
    ∀ (i : Nat) (h : i < l.length), l.Nodup → l[i] ∉ l.eraseIdx i := by
  induction l with
  | nil => intro i h; simp at h
  | cons a t ih =>
    intro i h hnd
    cases i with
    | zero =>
      simpa using (List.nodup_cons.mp hnd).1
    | succ i =>
      have h2 : i < t.length := by simpa using h
      intro hmem
      rw [List.eraseIdx_cons_succ, List.getElem_cons_succ] at hmem
      rcases List.mem_cons.mp hmem with heq | hmem2
      · exact (List.nodup_cons.mp hnd).1 (heq ▸ List.getElem_mem h2)
      · exact ih i h2 (List.nodup_cons.mp hnd).2 hmem2

theorem mem_eraseIdx_of_ne (l : List String) :
    ∀ (i : Nat) (h : i < l.length) (a : String),
      a ∈ l → a ≠ l[i] → a ∈ l.eraseIdx i := by
  induction l with
  | nil => intro i h; simp at h
  | cons b t ih =>
    intro i h a ha hne
    cases i with
    | zero =>
      rw [List.eraseIdx_cons_zero]
      rcases List.mem_cons.mp ha with heq | hmem
      · exact absurd (by simpa using heq) hne
      · exact hmem
    | succ i =>
      have h2 : i < t.length := by simpa using h
      rw [List.eraseIdx_cons_succ]
      rcases List.mem_cons.mp ha with heq | hmem
      · exact heq ▸ List.mem_cons_self b _
      · exact List.mem_cons_of_mem b (ih i h2 a hmem (by simpa using hne))

theorem selectEndpoint_notSticky (txTimeout : String) (stmtType : TxStmtType)
    (query : String) (st : ConnState) (pick : Nat)
    (hns : ¬ (st.txid ≠ "" ∧ query ≠ N1QL_DEFAULT_STATEMENT)) :
    selectEndpoint txTimeout stmtType query st pick =
      { queryAPI := st.queryAPIs.getD (pick % st.queryAPIs.length) ""
        txParams := if stmtType = .TX_START ∧ txTimeout ≠ "" then
          [("txtimeout", txTimeout)] else []
        selectedNode := pick % st.queryAPIs.length
        numNodes := st.queryAPIs.length } := by
  simp only [selectEndpoint]
  rw [if_neg hns]

theorem selectEndpoint_sticky (txTimeout : String) (stmtType : TxStmtType)
    (query : String) (st : ConnState) (pick : Nat)
    (htx : st.txid ≠ "") (hq : query ≠ N1QL_DEFAULT_STATEMENT) :
    selectEndpoint txTimeout stmtType query st pick =
      { queryAPI := st.txService
        txParams := [("txid", st.txid), ("tximplicit", "")]
        selectedNode := 0
        numNodes := 0 } := by
  simp only [selectEndpoint]
  rw [if_pos ⟨htx, hq⟩]

theorem dcrl_ns_fail_break (respond : String → Option Resp) (picks : Nat → Nat)
    (txTimeout query : String) (stmtType : TxStmtType) (k fuel : Nat) (st : ConnState)
    (hns : ¬ (st.txid ≠ "" ∧ query ≠ N1QL_DEFAULT_STATEMENT))
    (hne : st.queryAPIs ≠ [])
    (hresp : respond (st.queryAPIs.getD (picks k % st.queryAPIs.length) "") = none)
    (hbrk : st.txService ≠ "" ∨ st.queryAPIs.length = 1) :
    doClientRequestLoop respond picks txTimeout query stmtType k (fuel + 1) st =
      (.error "N1QL: Query nodes not responding", setTxValues st "" "",
        [st.queryAPIs.getD (picks k % st.queryAPIs.length) ""]) := by
  have hguard : ¬ (¬ (st.txid ≠ "" ∧ query ≠ N1QL_DEFAULT_STATEMENT) ∧
      st.queryAPIs.length = 0) := by
    intro hc
    exact hne (List.length_eq_zero.mp hc.2)
  simp only [doClientRequestLoop, if_neg hguard,
    selectEndpoint_notSticky txTimeout stmtType query st (picks k) hns, hresp,
    if_pos hbrk]

theorem dcrl_ns_fail_cont (respond : String → Option Resp) (picks : Nat → Nat)
    (txTimeout query : String) (stmtType : TxStmtType) (k fuel : Nat) (st : ConnState)
    (hns : ¬ (st.txid ≠ "" ∧ query ≠ N1QL_DEFAULT_STATEMENT))
    (hne : st.queryAPIs ≠ [])
    (hresp : respond (st.queryAPIs.getD (picks k % st.queryAPIs.length) "") = none)
    (hbrk : ¬ (st.txService ≠ "" ∨ st.queryAPIs.length = 1)) :
    doClientRequestLoop respond picks txTimeout query stmtType k (fuel + 1) st =
      ((doClientRequestLoop respond picks txTimeout query stmtType (k + 1) fuel
          { st with queryAPIs := st.queryAPIs.eraseIdx (picks k % st.queryAPIs.length) }).1,
        (doClientRequestLoop respond picks txTimeout query stmtType (k + 1) fuel
          { st with queryAPIs := st.queryAPIs.eraseIdx (picks k % st.queryAPIs.length) }).2.1,
        st.queryAPIs.getD (picks k % st.queryAPIs.length) "" ::
          (doClientRequestLoop respond picks txTimeout query stmtType (k + 1) fuel
            { st with queryAPIs :=
                st.queryAPIs.eraseIdx (picks k % st.queryAPIs.length) }).2.2) := by
  have hguard : ¬ (¬ (st.txid ≠ "" ∧ query ≠ N1QL_DEFAULT_STATEMENT) ∧
      st.queryAPIs.length = 0) := by
    intro hc
    exact hne (List.length_eq_zero.mp hc.2)
  simp only [doClientRequestLoop, if_neg hguard,
    selectEndpoint_notSticky txTimeout stmtType query st (picks k) hns, hresp,
    if_neg hbrk]

theorem dcrl_ns_ok (respond : String → Option Resp) (picks : Nat → Nat)
    (txTimeout query : String) (stmtType : TxStmtType) (k fuel : Nat) (st : ConnState)
    (resp : Resp)
    (hns : ¬ (st.txid ≠ "" ∧ query ≠ N1QL_DEFAULT_STATEMENT))
    (hne : st.queryAPIs ≠ [])
    (hresp : respond (st.queryAPIs.getD (picks k % st.queryAPIs.length) "") = some resp) :
    doClientRequestLoop respond picks txTimeout query stmtType k (fuel + 1) st =
      (.ok resp,
        (if stmtType = .TX_START then
          (if getTxid resp ≠ "" then
            setTxValues st (getTxid resp)
              (st.queryAPIs.getD (picks k % st.queryAPIs.length) "")
          else st)
        else if stmtType = .TX_COMMIT ∨ stmtType = .TX_ROLLBACK then
          setTxValues st "" ""
        else st),
        [st.queryAPIs.getD (picks k % st.queryAPIs.length) ""]) := by
  have hguard : ¬ (¬ (st.txid ≠ "" ∧ query ≠ N1QL_DEFAULT_STATEMENT) ∧
      st.queryAPIs.length = 0) := by
    intro hc
    exact hne (List.length_eq_zero.mp hc.2)
  simp only [doClientRequestLoop, if_neg hguard,
    selectEndpoint_notSticky txTimeout stmtType query st (picks k) hns, hresp]

theorem dcrl_sticky_fail (respond : String → Option Resp) (picks : Nat → Nat)
    (txTimeout query : String) (stmtType : TxStmtType) (k fuel : Nat) (st : ConnState)
    (htx : st.txid ≠ "") (hq : query ≠ N1QL_DEFAULT_STATEMENT)
    (hts : st.txService ≠ "") (hresp : respond st.txService = none) :
    doClientRequestLoop respond picks txTimeout query stmtType k (fuel + 1) st =
      (.error "N1QL: Query nodes not responding", setTxValues st "" "", [st.txService]) := by
  have hguard : ¬ (¬ (st.txid ≠ "" ∧ query ≠ N1QL_DEFAULT_STATEMENT) ∧
      st.queryAPIs.length = 0) := by
    intro hc
    exact hc.1 ⟨htx, hq⟩
  simp only [doClientRequestLoop, if_neg hguard,
    selectEndpoint_sticky txTimeout stmtType query st (picks k) htx hq, hresp,
    if_pos (Or.inl hts)]

theorem dcrl_sticky_ok (respond : String → Option Resp) (picks : Nat → Nat)
    (txTimeout query : String) (stmtType : TxStmtType) (k fuel : Nat) (st : ConnState)
    (resp : Resp)
    (htx : st.txid ≠ "") (hq : query ≠ N1QL_DEFAULT_STATEMENT)
    (hresp : respond st.txService = some resp) :
    doClientRequestLoop respond picks txTimeout query stmtType k (fuel + 1) st =
      (.ok resp,
        (if stmtType = .TX_START then
          (if getTxid resp ≠ "" then setTxValues st (getTxid resp) st.txService else st)
        else if stmtType = .TX_COMMIT ∨ stmtType = .TX_ROLLBACK then
          setTxValues st "" ""
        else st),
        [st.txService]) := by
  have hguard : ¬ (¬ (st.txid ≠ "" ∧ query ≠ N1QL_DEFAULT_STATEMENT) ∧
      st.queryAPIs.length = 0) := by
    intro hc
    exact hc.1 ⟨htx, hq⟩
  simp only [doClientRequestLoop, if_neg hguard,
    selectEndpoint_sticky txTimeout stmtType query st (picks k) htx hq, hresp]

theorem dcrl_subset (respond : String → Option Resp) (picks : Nat → Nat)
    (txTimeout query : String) (stmtType : TxStmtType) :
    ∀ (fuel : Nat) (st : ConnState) (k : Nat),
      (doClientRequestLoop respond picks txTimeout query stmtType k fuel st).2.1.queryAPIs ⊆
        st.queryAPIs := by
  intro fuel
  induction fuel with
  | zero => intro st k; exact fun a ha => ha
  | succ fuel ih =>
    intro st k
    by_cases hsticky : st.txid ≠ "" ∧ query ≠ N1QL_DEFAULT_STATEMENT
    · cases hresp : respond st.txService with
      | none =>
        by_cases hts : st.txService ≠ ""
        · rw [dcrl_sticky_fail respond picks txTimeout query stmtType k fuel st
            hsticky.1 hsticky.2 hts hresp]
          exact fun a ha => ha
        · have hguard : ¬ (¬ (st.txid ≠ "" ∧ query ≠ N1QL_DEFAULT_STATEMENT) ∧
              st.queryAPIs.length = 0) := by
            intro hc
            exact hc.1 hsticky
          have hbrk : ¬ (st.txService ≠ "" ∨
              (selectEndpoint txTimeout stmtType query st (picks k)).numNodes = 1) := by
            rw [selectEndpoint_sticky txTimeout stmtType query st (picks k)
              hsticky.1 hsticky.2]
            simp [hts]
          have hresp2 : respond
              (selectEndpoint txTimeout stmtType query st (picks k)).queryAPI = none := by
            rw [selectEndpoint_sticky txTimeout stmtType query st (picks k)
              hsticky.1 hsticky.2]
            exact hresp
          simp only [doClientRequestLoop, if_neg hguard, hresp2, if_neg hbrk]
          exact fun a ha =>
            List.Sublist.subset (List.eraseIdx_sublist _ _) (ih _ _ ha)
      | some resp =>
        rw [dcrl_sticky_ok respond picks txTimeout query stmtType k fuel st resp
          hsticky.1 hsticky.2 hresp]
        by_cases h1 : stmtType = .TX_START
        · by_cases h2 : getTxid resp ≠ "" <;> simp [h1, h2, setTxValues]
        · by_cases h3 : stmtType = .TX_COMMIT ∨ stmtType = .TX_ROLLBACK <;>
            simp [h1, h3, setTxValues]
    · by_cases hlen : st.queryAPIs.length = 0
      · have hg : ¬ (st.txid ≠ "" ∧ query ≠ N1QL_DEFAULT_STATEMENT) ∧
            st.queryAPIs.length = 0 := ⟨hsticky, hlen⟩
        simp only [doClientRequestLoop, if_pos hg]
        exact fun a ha => ha
      · have hne : st.queryAPIs ≠ [] := fun hc => hlen (by simp [hc])
        cases hresp : respond (st.queryAPIs.getD (picks k % st.queryAPIs.length) "") with
        | none =>
          by_cases hbrk : st.txService ≠ "" ∨ st.queryAPIs.length = 1
          · rw [dcrl_ns_fail_break respond picks txTimeout query stmtType k fuel st
              hsticky hne hresp hbrk]
            exact fun a ha => ha
          · rw [dcrl_ns_fail_cont respond picks txTimeout query stmtType k fuel st
              hsticky hne hresp hbrk]
            exact fun a ha =>
              List.Sublist.subset (List.eraseIdx_sublist _ _) (ih _ _ ha)
        | some resp =>
          rw [dcrl_ns_ok respond picks txTimeout query stmtType k fuel st resp
            hsticky hne hresp]
          by_cases h1 : stmtType = .TX_START
          · by_cases h2 : getTxid resp ≠ "" <;> simp [h1, h2, setTxValues]
          · by_cases h3 : stmtType = .TX_COMMIT ∨ stmtType = .TX_ROLLBACK <;>
              simp [h1, h3, setTxValues]

theorem dcrl_all_fail (respond : String → Option Resp) (picks : Nat → Nat)
    (txTimeout query : String) (stmtType : TxStmtType) :
    ∀ (fuel : Nat) (st : ConnState) (k : Nat), st.txid = "" → st.queryAPIs ≠ [] →
      (∀ a ∈ st.queryAPIs, respond a = none) → st.queryAPIs.length ≤ fuel →
      (doClientRequestLoop respond picks txTimeout query stmtType k fuel st).1 =
          .error "N1QL: Query nodes not responding" ∧
        (doClientRequestLoop respond picks txTimeout query stmtType k fuel st).2.1.txid = "" ∧
        (doClientRequestLoop respond picks txTimeout query stmtType k fuel st).2.1.txService
          = "" := by
  intro fuel
  induction fuel with
  | zero =>
    intro st k htx hne hfail hlen
    exact absurd (List.length_eq_zero.mp (Nat.le_zero.mp hlen)) hne
  | succ fuel ih =>
    intro st k htx hne hfail hlen
    have hns : ¬ (st.txid ≠ "" ∧ query ≠ N1QL_DEFAULT_STATEMENT) := fun hc => hc.1 htx
    have hn : 0 < st.queryAPIs.length := List.length_pos.mpr hne
    have hidx : picks k % st.queryAPIs.length < st.queryAPIs.length := Nat.mod_lt _ hn
    have hmem : st.queryAPIs.getD (picks k % st.queryAPIs.length) "" ∈ st.queryAPIs := by
      rw [List.getD_eq_getElem _ _ hidx]
      exact List.getElem_mem hidx
    have hresp := hfail _ hmem
    by_cases hbrk : st.txService ≠ "" ∨ st.queryAPIs.length = 1
    · rw [dcrl_ns_fail_break respond picks txTimeout query stmtType k fuel st
        hns hne hresp hbrk]
      exact ⟨rfl, rfl, rfl⟩
    · rw [dcrl_ns_fail_cont respond picks txTimeout query stmtType k fuel st
        hns hne hresp hbrk]
      have hlen2 : (st.queryAPIs.eraseIdx (picks k % st.queryAPIs.length)).length =
          st.queryAPIs.length - 1 := by
        rw [List.length_eraseIdx]
        simp [hidx]
      refine ih { st with queryAPIs :=
          (st.queryAPIs.eraseIdx (picks k % st.queryAPIs.length)) } (k + 1) htx ?_ ?_ ?_
      · intro hc
        have hc2 : st.queryAPIs.eraseIdx (picks k % st.queryAPIs.length) = [] := hc
        have h0 : (st.queryAPIs.eraseIdx (picks k % st.queryAPIs.length)).length = 0 := by
          rw [hc2]
          rfl
        have h1 : st.queryAPIs.length ≠ 1 := fun h => hbrk (Or.inr h)
        omega
      · intro a ha
        exact hfail a (List.Sublist.subset (List.eraseIdx_sublist _ _) ha)
      · show (st.queryAPIs.eraseIdx (picks k % st.queryAPIs.length)).length ≤ fuel
        omega

theorem dcrl_trace (respond : String → Option Resp) (picks : Nat → Nat)
    (txTimeout query : String) (stmtType : TxStmtType) :
    ∀ (fuel : Nat) (st : ConnState) (k : Nat), st.txid = "" → st.queryAPIs.Nodup →
      (doClientRequestLoop respond picks txTimeout query stmtType k fuel st).2.2.Nodup ∧
      ∀ a ∈ (doClientRequestLoop respond picks txTimeout query stmtType k fuel st).2.2,
        a ∈ st.queryAPIs := by
  intro fuel
  induction fuel with
  | zero =>
    intro st k htx hnd
    exact ⟨List.nodup_nil, by intro a ha; simp [doClientRequestLoop] at ha⟩
  | succ fuel ih =>
    intro st k htx hnd
    have hns : ¬ (st.txid ≠ "" ∧ query ≠ N1QL_DEFAULT_STATEMENT) := fun hc => hc.1 htx
    by_cases hlen : st.queryAPIs.length = 0
    · have hg : ¬ (st.txid ≠ "" ∧ query ≠ N1QL_DEFAULT_STATEMENT) ∧
          st.queryAPIs.length = 0 := ⟨hns, hlen⟩
      simp only [doClientRequestLoop, if_pos hg]
      exact ⟨List.nodup_nil, by intro a ha; simp at ha⟩
    · have hne : st.queryAPIs ≠ [] := fun hc => hlen (by simp [hc])
      have hn : 0 < st.queryAPIs.length := List.length_pos.mpr hne
      have hidx : picks k % st.queryAPIs.length < st.queryAPIs.length := Nat.mod_lt _ hn
      have hmem : st.queryAPIs.getD (picks k % st.queryAPIs.length) "" ∈ st.queryAPIs := by
        rw [List.getD_eq_getElem _ _ hidx]
        exact List.getElem_mem hidx
      cases hresp : respond (st.queryAPIs.getD (picks k % st.queryAPIs.length) "") with
      | none =>
        by_cases hbrk : st.txService ≠ "" ∨ st.queryAPIs.length = 1
        · rw [dcrl_ns_fail_break respond picks txTimeout query stmtType k fuel st
            hns hne hresp hbrk]
          refine ⟨List.nodup_singleton _, ?_⟩
          intro a ha
          rw [List.mem_singleton.mp ha]
          exact hmem
        · rw [dcrl_ns_fail_cont respond picks txTimeout query stmtType k fuel st
            hns hne hresp hbrk]
          have hnd2 : (st.queryAPIs.eraseIdx (picks k % st.queryAPIs.length)).Nodup :=
            List.Sublist.nodup (List.eraseIdx_sublist _ _) hnd
          obtain ⟨ihnd, ihsub⟩ := ih { st with queryAPIs :=
            (st.queryAPIs.eraseIdx (picks k % st.queryAPIs.length)) } (k + 1) htx hnd2
          have hnotmem : st.queryAPIs.getD (picks k % st.queryAPIs.length) "" ∉
              st.queryAPIs.eraseIdx (picks k % st.queryAPIs.length) := by
            rw [List.getD_eq_getElem _ _ hidx]
            exact getElem_not_mem_eraseIdx st.queryAPIs _ hidx hnd
          constructor
          · rw [List.nodup_cons]
            exact ⟨fun hc => hnotmem (ihsub _ hc), ihnd⟩
          · intro a ha
            rcases List.mem_cons.mp ha with heq | hmem2
            · exact heq ▸ hmem
            · exact List.Sublist.subset (List.eraseIdx_sublist _ _) (ihsub _ hmem2)
      | some resp =>
        rw [dcrl_ns_ok respond picks txTimeout query stmtType k fuel st resp
          hns hne hresp]
        refine ⟨List.nodup_singleton _, ?_⟩
        intro a ha
        rw [List.mem_singleton.mp ha]
        exact hmem

theorem dcrl_survivor (respond : String → Option Resp) (picks : Nat → Nat)
    (txTimeout query : String) (stmtType : TxStmtType) :
    ∀ (fuel : Nat) (st : ConnState) (k : Nat) (e : String) (r : Resp),
      st.txid = "" → st.txService = "" → st.queryAPIs.Nodup →
      e ∈ st.queryAPIs → respond e = some r →
      (∀ a ∈ st.queryAPIs, a ≠ e → respond a = none) →
      st.queryAPIs.length ≤ fuel →
      (doClientRequestLoop respond picks txTimeout query stmtType k fuel st).1 = .ok r ∧
      ∀ a ∈ (doClientRequestLoop respond picks txTimeout query stmtType k fuel st).2.2,
        a ≠ e →
        a ∉ (doClientRequestLoop respond picks txTimeout query stmtType
          k fuel st).2.1.queryAPIs := by
  intro fuel
  induction fuel with
  | zero =>
    intro st k e r htx hts hnd hmem hr hfail hlen
    exact absurd (List.length_eq_zero.mp (Nat.le_zero.mp hlen))
      (List.ne_nil_of_mem hmem)
  | succ fuel ih =>
    intro st k e r htx hts hnd hmem hr hfail hlen
    have hns : ¬ (st.txid ≠ "" ∧ query ≠ N1QL_DEFAULT_STATEMENT) := fun hc => hc.1 htx
    have hne : st.queryAPIs ≠ [] := List.ne_nil_of_mem hmem
    have hn : 0 < st.queryAPIs.length := List.length_pos.mpr hne
    have hidx : picks k % st.queryAPIs.length < st.queryAPIs.length := Nat.mod_lt _ hn
    have hsel : st.queryAPIs.getD (picks k % st.queryAPIs.length) "" ∈ st.queryAPIs := by
      rw [List.getD_eq_getElem _ _ hidx]
      exact List.getElem_mem hidx
    by_cases hx : st.queryAPIs.getD (picks k % st.queryAPIs.length) "" = e
    · have hresp : respond (st.queryAPIs.getD (picks k % st.queryAPIs.length) "") =
          some r := by
        rw [hx]
        exact hr
      rw [dcrl_ns_ok respond picks txTimeout query stmtType k fuel st r hns hne hresp]
      refine ⟨rfl, ?_⟩
      intro a ha hane
      exact absurd (hx ▸ List.mem_singleton.mp ha) hane
    · have hresp := hfail _ hsel hx
      have hbrk : ¬ (st.txService ≠ "" ∨ st.queryAPIs.length = 1) := by
        intro hc
        rcases hc with hc | hc
        · exact hc hts
        · obtain ⟨b, hb⟩ := List.length_eq_one.mp hc
          have he : e = b := by
            rw [hb] at hmem
            exact List.mem_singleton.mp hmem
          have hxb : st.queryAPIs.getD (picks k % st.queryAPIs.length) "" = b := by
            rw [hb]
            have h1 : picks k % ([b] : List String).length = 0 := Nat.mod_one _
            rw [h1]
            rfl
          exact hx (hxb.trans he.symm)
      rw [dcrl_ns_fail_cont respond picks txTimeout query stmtType k fuel st
        hns hne hresp hbrk]
      have hlen2 : (st.queryAPIs.eraseIdx (picks k % st.queryAPIs.length)).length =
          st.queryAPIs.length - 1 := by
        rw [List.length_eraseIdx]
        simp [hidx]
      have hnd2 : (st.queryAPIs.eraseIdx (picks k % st.queryAPIs.length)).Nodup :=
        List.Sublist.nodup (List.eraseIdx_sublist _ _) hnd
      have hmem2 : e ∈ st.queryAPIs.eraseIdx (picks k % st.queryAPIs.length) := by
        refine mem_eraseIdx_of_ne st.queryAPIs _ hidx e hmem ?_
        rw [← List.getD_eq_getElem st.queryAPIs "" hidx]
        exact fun hc => hx hc.symm
      obtain ⟨ih1, ih2⟩ := ih { st with queryAPIs :=
          (st.queryAPIs.eraseIdx (picks k % st.queryAPIs.length)) } (k + 1) e r htx hts hnd2
        hmem2 hr
        (fun a ha hane => hfail a (List.Sublist.subset (List.eraseIdx_sublist _ _) ha) hane)
        (by
          show (st.queryAPIs.eraseIdx (picks k % st.queryAPIs.length)).length ≤ fuel
          omega)
      refine ⟨ih1, ?_⟩
      intro a ha hane
      rcases List.mem_cons.mp ha with heq | hmem3
      · subst heq
        have hnotmem : st.queryAPIs.getD (picks k % st.queryAPIs.length) "" ∉
            st.queryAPIs.eraseIdx (picks k % st.queryAPIs.length) := by
          rw [List.getD_eq_getElem _ _ hidx]
          exact getElem_not_mem_eraseIdx st.queryAPIs _ hidx hnd
        intro hc
        exact hnotmem (dcrl_subset respond picks txTimeout query stmtType fuel _ (k + 1) hc)
      · exact ih2 a hmem3 hane

/-- C1: for a `doClientRequest` call with no active transaction over a
duplicate-free endpoint set: the attempted endpoints never repeat and all come
from the live set; if every endpoint fails at transport level the call returns
the terminal "no nodes responding" error with the transaction state abandoned;
if exactly one endpoint responds, the call returns that endpoint's response
and every failed attempted endpoint has been removed from the live set; and a
call forced to a sticky transaction endpoint that fails returns the same
terminal error with the transaction state abandoned. -/
theorem c1_failover (respond : String → Option Resp) (picks : Nat → Nat)
    (txTimeout query : String) (st : ConnState) :
    (st.txid = "" → st.queryAPIs.Nodup →
      (doClientRequest respond picks txTimeout query st).2.2.Nodup ∧
      ∀ a ∈ (doClientRequest respond picks txTimeout query st).2.2, a ∈ st.queryAPIs)
    ∧ (st.txid = "" → st.queryAPIs ≠ [] → (∀ a ∈ st.queryAPIs, respond a = none) →
      (doClientRequest respond picks txTimeout query st).1 =
        .error "N1QL: Query nodes not responding" ∧
      (doClientRequest respond picks txTimeout query st).2.1.txid = "" ∧
      (doClientRequest respond picks txTimeout query st).2.1.txService = "")
    ∧ (∀ (e : String) (r : Resp), st.txid = "" → st.txService = "" →
      st.queryAPIs.Nodup → e ∈ st.queryAPIs → respond e = some r →
      (∀ a ∈ st.queryAPIs, a ≠ e → respond a = none) →
      (doClientRequest respond picks txTimeout query st).1 = .ok r ∧
      ∀ a ∈ (doClientRequest respond picks txTimeout query st).2.2, a ≠ e →
        a ∉ (doClientRequest respond picks txTimeout query st).2.1.queryAPIs)
    ∧ (st.txid ≠ "" → query ≠ N1QL_DEFAULT_STATEMENT → st.txService ≠ "" →
      respond st.txService = none →
      (doClientRequest respond picks txTimeout query st).1 =
        .error "N1QL: Query nodes not responding" ∧
      (doClientRequest respond picks txTimeout query st).2.1.txid = "" ∧
      (doClientRequest respond picks txTimeout query st).2.1.txService = "") := by
  refine ⟨?_, ?_, ?_, ?_⟩
  · intro htx hnd
    exact dcrl_trace respond picks txTimeout query (txStatementType query)
      (st.queryAPIs.length + 1) st 0 htx hnd
  · intro htx hne hfail
    exact dcrl_all_fail respond picks txTimeout query (txStatementType query)
      (st.queryAPIs.length + 1) st 0 htx hne hfail (by omega)
  · intro e r htx hts hnd hmem hr hfail
    exact dcrl_survivor respond picks txTimeout query (txStatementType query)
      (st.queryAPIs.length + 1) st 0 e r htx hts hnd hmem hr hfail (by omega)
  · intro htx hq hts hresp
    have h := dcrl_sticky_fail respond picks txTimeout query (txStatementType query)
      0 st.queryAPIs.length st htx hq hts hresp
    refine ⟨?_, ?_, ?_⟩
    · show (doClientRequestLoop respond picks txTimeout query (txStatementType query)
        0 (st.queryAPIs.length + 1) st).1 = _
      rw [h]
    · show (doClientRequestLoop respond picks txTimeout query (txStatementType query)
        0 (st.queryAPIs.length + 1) st).2.1.txid = _
      rw [h]
      rfl
    · show (doClientRequestLoop respond picks txTimeout query (txStatementType query)
        0 (st.queryAPIs.length + 1) st).2.1.txService = _
      rw [h]
      rfl

/-- Witness for C1: three distinct endpoints where only "good" responds; the
call returns that endpoint's response whatever the random draws do. -/
theorem c1_failover_witness :
    (doClientRequest (fun a => if a = "good" then some ⟨200, ""⟩ else none)
      (fun _ => 0) "" "q" ⟨["bad1", "bad2", "good"], "", ""⟩).1 = .ok ⟨200, ""⟩ :=
  ((c1_failover (fun a => if a = "good" then some ⟨200, ""⟩ else none)
      (fun _ => 0) "" "q" ⟨["bad1", "bad2", "good"], "", ""⟩).2.2.1 "good" ⟨200, ""⟩
    rfl rfl (by decide) (by decide) (by decide) (by decide)).1

/-- C4 (amended): a request issued while the transaction id is non-empty and
whose statement is not the fixed default ping statement is routed to the
sticky transaction endpoint with the `txid` parameter attached (and the whole
call only ever contacts that endpoint), while a request with no active
transaction is routed to the randomly chosen endpoint of the live set with no
`txid` parameter. -/
theorem c4_routing (txTimeout query : String) (st : ConnState) (pick : Nat) :
    (st.txid ≠ "" → query ≠ N1QL_DEFAULT_STATEMENT →
      (selectEndpoint txTimeout (txStatementType query) query st pick).queryAPI =
        st.txService ∧
      (setQueryParams []
        (selectEndpoint txTimeout (txStatementType query) query st pick).txParams
        [("statement", query)]).lookup "txid" = some st.txid)
    ∧ (st.txid = "" →
      (selectEndpoint txTimeout (txStatementType query) query st pick).queryAPI =
        st.queryAPIs.getD (pick % st.queryAPIs.length) "" ∧
      (selectEndpoint txTimeout (txStatementType query) query st pick).txParams.lookup
        "txid" = none)
    ∧ (∀ (respond : String → Option Resp) (picks : Nat → Nat),
      st.txid ≠ "" → query ≠ N1QL_DEFAULT_STATEMENT → st.txService ≠ "" →
      (doClientRequest respond picks txTimeout query st).2.2 = [st.txService]) := by
  refine ⟨?_, ?_, ?_⟩
  · intro htx hq
    rw [selectEndpoint_sticky txTimeout (txStatementType query) query st pick htx hq]
    refine ⟨rfl, ?_⟩
    simp [setQueryParams, valuesSet, valuesDel, htx, List.lookup]
  · intro htx
    have hns : ¬ (st.txid ≠ "" ∧ query ≠ N1QL_DEFAULT_STATEMENT) := fun hc => hc.1 htx
    rw [selectEndpoint_notSticky txTimeout (txStatementType query) query st pick hns]
    refine ⟨rfl, ?_⟩
    by_cases hts : txStatementType query = .TX_START ∧ txTimeout ≠ "" <;> simp [hts]
  · intro respond picks htx hq hts
    cases hresp : respond st.txService with
    | none =>
      have h := dcrl_sticky_fail respond picks txTimeout query (txStatementType query)
        0 st.queryAPIs.length st htx hq hts hresp
      show (doClientRequestLoop respond picks txTimeout query (txStatementType query)
        0 (st.queryAPIs.length + 1) st).2.2 = _
      rw [h]
    | some resp =>
      have h := dcrl_sticky_ok respond picks txTimeout query (txStatementType query)
        0 st.queryAPIs.length st resp htx hq hresp
      show (doClientRequestLoop respond picks txTimeout query (txStatementType query)
        0 (st.queryAPIs.length + 1) st).2.2 = _
      rw [h]

/-- C4 counterexample: with an open transaction (`txid` = "TX123", sticky
endpoint "stickyNode") a request carrying the fixed default statement is
routed to a randomly chosen live endpoint with no `txid` parameter, not to
the sticky endpoint — refuting the claim's universal routing rule for
requests issued while the transaction id is non-empty. -/
theorem c4_counterexample :
    (selectEndpoint "" (txStatementType N1QL_DEFAULT_STATEMENT) N1QL_DEFAULT_STATEMENT
      ⟨["nodeA", "nodeB"], "TX123", "stickyNode"⟩ 0).queryAPI = "nodeA"
    ∧ (selectEndpoint "" (txStatementType N1QL_DEFAULT_STATEMENT) N1QL_DEFAULT_STATEMENT
      ⟨["nodeA", "nodeB"], "TX123", "stickyNode"⟩ 0).queryAPI ≠ "stickyNode"
    ∧ (selectEndpoint "" (txStatementType N1QL_DEFAULT_STATEMENT) N1QL_DEFAULT_STATEMENT
      ⟨["nodeA", "nodeB"], "TX123", "stickyNode"⟩ 0).txParams = [] := by
  refine ⟨rfl, by decide, rfl⟩

/-- Witness for C4 at concrete inputs: sticky routing with the txid attached,
and the whole sticky call contacting only the sticky endpoint. -/
theorem c4_routing_witness :
    (selectEndpoint "7m" (txStatementType "q") "q" ⟨["n1"], "T", "S"⟩ 3).queryAPI = "S"
    ∧ (setQueryParams []
        (selectEndpoint "7m" (txStatementType "q") "q" ⟨["n1"], "T", "S"⟩ 3).txParams
        [("statement", "q")]).lookup "txid" = some "T"
    ∧ (doClientRequest (fun _ => none) (fun _ => 0) "7m" "q" ⟨["n1"], "T", "S"⟩).2.2 =
      ["S"] :=
  ⟨((c4_routing "7m" "q" ⟨["n1"], "T", "S"⟩ 3).1 (by decide) (by decide)).1,
   ((c4_routing "7m" "q" ⟨["n1"], "T", "S"⟩ 3).1 (by decide) (by decide)).2,
   (c4_routing "7m" "q" ⟨["n1"], "T", "S"⟩ 3).2.2 (fun _ => none) (fun _ => 0)
     (by decide) (by decide) (by decide)⟩

theorem goIndexAux_none_iff (sub : List Char) :
    ∀ (s : List Char) (i : Nat), goIndexAux sub s i = none ↔ ¬ sub <:+: s := by
  intro s
  induction s with
  | nil =>
    intro i
    simp only [goIndexAux]
    by_cases h : sub.isPrefixOf ([] : List Char)
    · have hs : sub = [] := by
        simpa using List.isPrefixOf_iff_prefix.mp h
      simp [h, hs]
    · have hs : sub ≠ [] := by
        intro hc
        exact h (by simp [hc, List.isPrefixOf])
      simp [h, List.infix_nil, hs]
  | cons c t ih =>
    intro i
    simp only [goIndexAux]
    by_cases h : sub.isPrefixOf (c :: t)
    · simp only [if_pos h]
      have : sub <:+: c :: t := (List.isPrefixOf_iff_prefix.mp h).isInfix
      simp [this]
    · simp only [if_neg h]
      rw [ih (i + 1)]
      constructor
      · intro hn hc
        rcases List.infix_cons_iff.mp hc with hp | hinf
        · exact h (List.isPrefixOf_iff_prefix.mpr hp)
        · exact hn hinf
      · intro hn hc
        exact hn (List.infix_cons hc)

theorem goIndexAux_some_infix (sub : List Char) :
    ∀ (s : List Char) (i j : Nat), goIndexAux sub s i = some j → sub <:+: s := by
  intro s
  induction s with
  | nil =>
    intro i j h
    simp only [goIndexAux] at h
    by_cases hp : sub.isPrefixOf ([] : List Char)
    · exact (List.isPrefixOf_iff_prefix.mp hp).isInfix
    · simp [hp] at h
  | cons c t ih =>
    intro i j h
    simp only [goIndexAux] at h
    by_cases hp : sub.isPrefixOf (c :: t)
    · exact (List.isPrefixOf_iff_prefix.mp hp).isInfix
    · rw [if_neg hp] at h
      exact List.infix_cons (ih (i + 1) j h)

theorem singleton_infix_iff_mem (c : Char) (l : List Char) :
    [c] <:+: l ↔ c ∈ l := by
  constructor
  · intro h
    exact List.singleton_sublist.mp h.sublist
  · intro h
    obtain ⟨s, t, rfl⟩ := List.append_of_mem h
    exact ⟨s, t, by simp⟩

/-- C10: `stripurl` is partial: on any input without an "http" substring, or
one where no space character follows the first "http" occurrence, its
unchecked substring indexing is out of bounds (Go panics), so the total
embedding takes the explicit out-of-range error branch; conversely every
input on which it completes normally contains an "http" whose suffix holds a
terminating space. -/
theorem c10_stripurl_out_of_bounds :
    (∀ (parseUser : String → Except Unit (Option (String × String))) (fuel : Nat)
      (s : String), ¬ ("http".toList <:+: s.toList) →
      stripurl parseUser (fuel + 1) s = .error .sliceOutOfRange)
    ∧ (∀ (parseUser : String → Except Unit (Option (String × String))) (fuel : Nat)
      (s : String) (i : Nat), goIndexChars s.toList ("http".toList) = some i →
      ' ' ∉ s.toList.drop i →
      stripurl parseUser (fuel + 1) s = .error .sliceOutOfRange)
    ∧ (∀ (parseUser : String → Except Unit (Option (String × String))) (fuel : Nat)
      (s out : String), stripurl parseUser (fuel + 1) s = .ok out →
      ∃ i, goIndexChars s.toList ("http".toList) = some i ∧ ' ' ∈ s.toList.drop i) := by
  refine ⟨?_, ?_, ?_⟩
  · intro parseUser fuel s h
    have h1 : goIndexChars s.toList ("http".toList) = none :=
      (goIndexAux_none_iff ("http".toList) s.toList 0).mpr h
    simp only [stripurl, h1]
  · intro parseUser fuel s i hidx hsp
    have h2 : goIndexChars (s.toList.drop i) (" ".toList) = none := by
      refine (goIndexAux_none_iff (" ".toList) (s.toList.drop i) 0).mpr ?_
      intro hc
      exact hsp ((singleton_infix_iff_mem ' ' (s.toList.drop i)).mp hc)
    simp only [stripurl, hidx, h2]
  · intro parseUser fuel s out hok
    cases hidx : goIndexChars s.toList ("http".toList) with
    | none =>
      rw [show stripurl parseUser (fuel + 1) s = .error .sliceOutOfRange from by
        simp only [stripurl, hidx]] at hok
      exact absurd hok (by simp)
    | some i =>
      cases hsp : goIndexChars (s.toList.drop i) (" ".toList) with
      | none =>
        rw [show stripurl parseUser (fuel + 1) s = .error .sliceOutOfRange from by
          simp only [stripurl, hidx, hsp]] at hok
        exact absurd hok (by simp)
      | some j =>
        refine ⟨i, rfl, ?_⟩
        have hin : (" ".toList) <:+: s.toList.drop i :=
          goIndexAux_some_infix (" ".toList) (s.toList.drop i) 0 j hsp
        exact (singleton_infix_iff_mem ' ' (s.toList.drop i)).mp hin

/-- Witness for C10: a message with no URL, and one whose URL is not
space-terminated, both take the out-of-range error branch. -/
theorem c10_stripurl_out_of_bounds_witness :
    stripurl (fun _ => .ok none) 1 "boom" = .error .sliceOutOfRange
    ∧ stripurl (fun _ => .ok none) 1 "see http://x.y" = .error .sliceOutOfRange :=
  ⟨c10_stripurl_out_of_bounds.1 (fun _ => .ok none) 0 "boom" (by decide),
   c10_stripurl_out_of_bounds.2.1 (fun _ => .ok none) 0 "see http://x.y" 4 (by decide) (by decide)⟩

end Godbc
